import Mathlib

/-!
Shallow embedding of the nextjs-chatbot repository core: the route
authorization gate (`src/app/(auth)/auth.config.ts`) and the chat input
submission and attachment pipeline (the multimodal input component in the
same source pack: `adjustHeight`, `resetHeight`, the localStorage draft
effects, `submitForm`, `uploadFile`, `handleFileChange`, the attachment
preview render, the Textarea onKeyDown handler and the send button).

Pure functions of the source become Lean functions; DOM/React effects
become explicit state passing plus an event trace; fallible code returns
Option.  All definitions are executable.
-/

namespace Chatbot

/-! ## Route authorization gate (auth.config.ts, callbacks.authorized) -/

/-- Outcome of the `authorized` callback: `true` (allow), `false` (deny,
framework redirects to login), or `Response.redirect(new URL('/', nextUrl))`
(redirect to the home page). -/
inductive Decision where
  | allow
  | deny
  | redirectHome
deriving DecidableEq, Repr

/-- JavaScript `s.startsWith(p)`: `p` is a character-wise prefix of `s`.
Defined over the character list so that concrete instances reduce in the
kernel. -/
def jsStartsWith (s p : String) : Bool :=
  p.data.isPrefixOf s.data

/-- `authConfig.callbacks.authorized`, translated line by line.
`isLoggedIn = !!auth?.user` is the Boolean `isLoggedIn` argument;
`nextUrl.pathname` is the String `pathname` argument. -/
def authorized (isLoggedIn : Bool) (pathname : String) : Decision :=
  let isOnChat := jsStartsWith pathname "/"
  let isOnRegister := jsStartsWith pathname "/register"
  let isOnLogin := jsStartsWith pathname "/login"
  if isLoggedIn && (isOnLogin || isOnRegister) then
    Decision.redirectHome
  else if isOnRegister || isOnLogin then
    Decision.allow
  else if isOnChat then
    (if isLoggedIn then Decision.allow else Decision.deny)
  else if isLoggedIn then
    Decision.redirectHome
  else
    Decision.allow

/-- Which `return` statement of the `authorized` callback fires: the three
commented rules, or one of the two trailing fall-through returns after the
`isOnChat` block. -/
inductive AuthBranch where
  | rule1
  | rule2
  | rule3
  | tailRedirect
  | tailAllow
deriving DecidableEq, Repr

/-- Control-flow mirror of `authorized`: same guards, records which branch
returns. -/
def authorizedBranch (isLoggedIn : Bool) (pathname : String) : AuthBranch :=
  let isOnChat := jsStartsWith pathname "/"
  let isOnRegister := jsStartsWith pathname "/register"
  let isOnLogin := jsStartsWith pathname "/login"
  if isLoggedIn && (isOnLogin || isOnRegister) then
    AuthBranch.rule1
  else if isOnRegister || isOnLogin then
    AuthBranch.rule2
  else if isOnChat then
    AuthBranch.rule3
  else if isLoggedIn then
    AuthBranch.tailRedirect
  else
    AuthBranch.tailAllow

/-- Modelled from the spec (section 4.5), read literally: the three
ordered rules of the Route Authorization Gate, where "path is login or
register" holds exactly on the login and register pages themselves. -/
def specDecide (isAuthenticated : Bool) (path : String) : Decision :=
  let onAuthPage := path == "/login" || path == "/register"
  if isAuthenticated && onAuthPage then
    Decision.redirectHome
  else if onAuthPage then
    Decision.allow
  else if isAuthenticated then
    Decision.allow
  else
    Decision.deny

/-- Modelled from the amended claim: the same three ordered rules with
page recognition read prefix-based (a path beginning with the login or
register path), matching how the source's `startsWith` checks recognize
those pages. -/
def specDecideByPrefix (isAuthenticated : Bool) (path : String) : Decision :=
  let onAuthPage := jsStartsWith path "/login" || jsStartsWith path "/register"
  if isAuthenticated && onAuthPage then
    Decision.redirectHome
  else if onAuthPage then
    Decision.allow
  else if isAuthenticated then
    Decision.allow
  else
    Decision.deny

/-! ## Chat input component: data model -/

/-- The `Attachment` record of the `ai` package as produced by `uploadFile`:
`{ url, name, contentType }`. -/
structure Attachment where
  url : String
  name : String
  contentType : String
deriving DecidableEq, Repr

/-- A `toast.error(x)` notification. The argument may be `undefined` (for
the JS destructuring of an absent field), modelled as `none`. -/
inductive Toast where
  | error (msg : Option String)
deriving DecidableEq, Repr

/-- The generic failure message of the `catch` branch of `uploadFile`. -/
def uploadFailMessage : String := "Failed to upload file, please try again!"

/-- The warning shown when Enter is pressed while the model streams. -/
def pleaseWaitMessage : String := "Please wait for the model to finish its response!"

/-! ## Upload client (`uploadFile`) -/

/-- One outcome of `fetch('/api/files/upload')`, at the granularity the
code branches on: the fetch itself throws (`exception`); an OK-status
response whose JSON body fails to parse (`ok none`, `response.json()`
throws into the shared catch) or yields the three fields `url`,
`pathname`, `contentType` the code reads; or a non-OK response whose body
fails to parse (`err none`) or parses with an optional `error` field. -/
inductive UploadResponse where
  | exception
  | ok (body : Option (String × String × String))
  | err (body : Option (Option String))
deriving DecidableEq, Repr

/-- `uploadFile`, as a function of the response its fetch receives: the
returned attachment (`none` models the implicit `undefined` return on
every failure path) paired with the toasts emitted. -/
def uploadFile (resp : UploadResponse) : Option Attachment × List Toast :=
  match resp with
  | UploadResponse.exception => (none, [Toast.error (some uploadFailMessage)])
  | UploadResponse.ok none => (none, [Toast.error (some uploadFailMessage)])
  | UploadResponse.ok (some (url, pathname, contentType)) =>
      (some { url := url, name := pathname, contentType := contentType }, [])
  | UploadResponse.err none => (none, [Toast.error (some uploadFailMessage)])
  | UploadResponse.err (some e) => (none, [Toast.error e])

/-! ## Attachment queue manager (`handleFileChange`, preview render) -/

/-- The observable outcome of one `handleFileChange` run:
`pendingImmediate` is the upload queue set synchronously before any await;
`finalQueue` and `finalAttachments` are the states after all uploads
settle. -/
structure FileChangeResult where
  pendingImmediate : List String
  finalQueue : List String
  finalAttachments : List Attachment
deriving DecidableEq, Repr

/-- `handleFileChange`: each selected file is its name paired with the
response its upload will receive.  `setUploadQueue(files.map(name))` runs
first; `Promise.all` yields results in input order; the `filter` on
`!== undefined` keeps the successes (here `filterMap id`); `setAttachments`
appends them to the current list; the `finally` block clears the queue. -/
def handleFileChange (currentAttachments : List Attachment)
    (files : List (String × UploadResponse)) : FileChangeResult :=
  let names := files.map (fun f => f.fst)
  let uploaded := files.map (fun f => uploadFile f.snd)
  let uploadedAttachments := uploaded.map Prod.fst
  let successfullyUploadedAttachments := uploadedAttachments.filterMap id
  { pendingImmediate := names
    finalQueue := []
    finalAttachments := currentAttachments ++ successfullyUploadedAttachments }

/-- One rendered attachment preview: a completed attachment, or an
in-flight upload queue entry rendered with `isUploading`. -/
inductive Preview where
  | done (a : Attachment)
  | uploading (filename : String)
deriving DecidableEq, Repr

/-- The preview row of the component: rendered only when either list is
non-empty; completed attachments first, then the upload queue entries. -/
def renderPreviews (attachments : List Attachment) (uploadQueue : List String) :
    List Preview :=
  if attachments.length > 0 || uploadQueue.length > 0 then
    attachments.map Preview.done ++ uploadQueue.map Preview.uploading
  else
    []

/-! ## Textarea sizing controller -/

/-- A CSS height value: the keyword `'auto'` or a pixel length. -/
inductive CssHeight where
  | auto
  | px (n : Nat)
deriving DecidableEq, Repr

/-- The textarea element state the sizing code touches. -/
structure TextareaEl where
  content : String
  height : CssHeight
deriving DecidableEq

/-- DOM `scrollHeight` model: `base content` is the content-driven height;
an element with a fixed pixel height reports at least that height, since
`scrollHeight` is never below the client height. -/
def scrollHeight (base : String → Nat) (t : TextareaEl) : Nat :=
  match t.height with
  | CssHeight.auto => base t.content
  | CssHeight.px n => max (base t.content) n

/-- `adjustHeight`: set `style.height = 'auto'`, then set
`style.height` to the measured `scrollHeight + 2` pixels. -/
def adjustHeight (base : String → Nat) (t : TextareaEl) : TextareaEl :=
  let collapsed : TextareaEl := { t with height := CssHeight.auto }
  { collapsed with height := CssHeight.px (scrollHeight base collapsed + 2) }

/-- `resetHeight`: set `style.height = 'auto'`, then the fixed `'98px'`. -/
def resetHeight (t : TextareaEl) : TextareaEl :=
  let collapsed : TextareaEl := { t with height := CssHeight.auto }
  { collapsed with height := CssHeight.px 98 }

/-! ## Draft persistence (`useLocalStorage('input', '')` effects) -/

/-- Durable client-side storage: a key-value map, `none` where no value
was ever written. -/
abbrev LocalStorage := String → Option String

/-- Write one key of durable storage. -/
def storageSet (s : LocalStorage) (key value : String) : LocalStorage :=
  fun k => if k = key then some value else s k

/-- The hook read `localStorageInput`: the value stored under the fixed
key `"input"`, with the hook's default `''` when absent. -/
def readLocalStorageInput (s : LocalStorage) : String :=
  (s "input").getD ""

/-- The `useEffect` mirroring every input change into durable storage:
`setLocalStorageInput(input)`. -/
def mirrorInputEffect (input : String) (s : LocalStorage) : LocalStorage :=
  storageSet s "input" input

/-- JavaScript `a || b` on strings: the empty string is falsy. -/
def jsOrString (a b : String) : String :=
  if a = "" then b else a

/-- The mount `useEffect` seeding the displayed value:
`finalValue = domValue || localStorageInput || ''`. -/
def seedInput (domValue : String) (s : LocalStorage) : String :=
  jsOrString domValue (jsOrString (readLocalStorageInput s) "")

/-! ## Submission gating (Textarea onKeyDown, PureSendButton) -/

/-- Outcome of one Textarea `onKeyDown` dispatch: call `submitForm`, show
the please-wait toast, or fall through to the default key behavior (for
Shift+Enter, inserting a newline). -/
inductive KeyAction where
  | submit
  | warn
  | passthrough
deriving DecidableEq, Repr

/-- The Textarea `onKeyDown` handler.  The draft text and the upload queue
are in scope in the component but the handler does not consult them, so
they are unused arguments here. -/
def textareaOnKeyDown (key : String) (shiftKey : Bool) (isLoading : Bool)
    (_input : String) (_uploadQueue : List String) : KeyAction :=
  if key == "Enter" && !shiftKey then
    (if isLoading then KeyAction.warn else KeyAction.submit)
  else
    KeyAction.passthrough

/-- The `disabled` prop of `PureSendButton`:
`input.length === 0 || uploadQueue.length > 0`. -/
def sendButtonDisabled (input : String) (uploadQueue : List String) : Bool :=
  input.length == 0 || uploadQueue.length > 0

/-- The component renders the StopButton instead of the SendButton while
`isLoading`. -/
def sendButtonRendered (isLoading : Bool) : Bool :=
  !isLoading

/-- Submission through the button is impossible exactly when the send
button is not rendered (a response is streaming) or rendered disabled. -/
def buttonSubmissionBlocked (isLoading : Bool) (input : String)
    (uploadQueue : List String) : Bool :=
  !sendButtonRendered isLoading || sendButtonDisabled input uploadQueue

/-! ## Submission controller (`submitForm`) -/

/-- The externally visible operations `submitForm` performs, traced in
program order. -/
inductive ChatEvent where
  | historyReplace (url : String)
  | send (attachments : List Attachment)
  | focusTextarea
deriving DecidableEq, Repr

/-- The component state `submitForm` reads and writes. -/
structure InputState where
  url : String
  attachments : List Attachment
  storage : LocalStorage
  textarea : TextareaEl

/-- The refocus guard `width && width > 768`: `width` may be undefined
(`none`), and both `undefined` and `0` are falsy. -/
def widthExceeds (width : Option Nat) : Bool :=
  match width with
  | none => false
  | some w => w > 768

/-- `submitForm`: `window.history.replaceState` to the chat URL,
`handleSubmit` carrying the current attachments, `setAttachments([])`,
`setLocalStorageInput('')`, `resetHeight()`, and the conditional refocus.
The trace lists the external calls in program order. -/
def submitForm (chatId : String) (width : Option Nat) (st : InputState) :
    InputState × List ChatEvent :=
  let newUrl := "/chat/" ++ chatId
  let ev1 := ChatEvent.historyReplace newUrl
  let ev2 := ChatEvent.send st.attachments
  let st1 : InputState :=
    { st with
      url := newUrl
      attachments := []
      storage := mirrorInputEffect "" st.storage
      textarea := resetHeight st.textarea }
  if widthExceeds width then
    (st1, [ev1, ev2, ChatEvent.focusTextarea])
  else
    (st1, [ev1, ev2])

end Chatbot

namespace Chatbot

/-! ## Helper lemmas -/

/-- A string has length zero exactly when it is the empty string. -/
theorem string_length_eq_zero_iff (s : String) : s.length = 0 ↔ s = "" := by
  cases s with
  | mk data =>
    simp [String.length, String.ext_iff]

/-- The refocus guard holds exactly when the width is present and exceeds
768. -/
theorem widthExceeds_eq_true_iff (width : Option Nat) :
    widthExceeds width = true ↔ ∃ w, width = some w ∧ 768 < w := by
  cases width <;> simp [widthExceeds]

/-! ## Claim theorems -/

/-- Counterexample to claim C2: at the authenticated request for
"/register-admin" the callback's prefix test fires rule 1 and redirects
home, while the spec's literal rules (the path is not the login or
register page) reach rule 3 and allow; so the decision does not follow
the spec's three rules at every request path. -/
theorem auth_gate_spec_divergence_cex :
    authorized true "/register-admin" = Decision.redirectHome
    ∧ specDecide true "/register-admin" = Decision.allow := by
  constructor <;> decide

/-- Claim C2 as amended: for every request pathname (which always begins
with "/") and authentication flag, the callback's decision follows the
spec's three ordered rules with "path is login or register" read
prefix-based, as the source recognizes those pages; on the exact pages
"/login" and "/register" the prefix reading coincides with the spec's
literal one, and the four enumerated cases hold as stated. -/
theorem auth_gate_rules_amended :
    (∀ (isLoggedIn : Bool) (path : String), jsStartsWith path "/" = true →
      authorized isLoggedIn path = specDecideByPrefix isLoggedIn path)
    ∧ (∀ (isLoggedIn : Bool) (path : String),
      path = "/login" ∨ path = "/register" →
        specDecideByPrefix isLoggedIn path = specDecide isLoggedIn path)
    ∧ authorized true "/login" = Decision.redirectHome
    ∧ authorized false "/login" = Decision.allow
    ∧ authorized false "/" = Decision.deny
    ∧ authorized true "/" = Decision.allow := by
  refine ⟨?_, ?_, by decide, by decide, by decide, by decide⟩
  · intro isLoggedIn path hpath
    cases isLoggedIn <;>
      cases hlog : jsStartsWith path "/login" <;>
        cases hreg : jsStartsWith path "/register" <;>
          simp [authorized, specDecideByPrefix, hpath, hlog, hreg]
  · intro isLoggedIn path h
    rcases h with h | h <;> subst h <;> cases isLoggedIn <;> decide

/-- Witness for C2 as amended: the refinement instantiated at the
unauthenticated request for "/loginfoo", and the agreement of the two
spec readings instantiated at the authenticated login page. -/
theorem auth_gate_rules_amended_witness :
    authorized false "/loginfoo" = specDecideByPrefix false "/loginfoo"
    ∧ specDecideByPrefix true "/login" = specDecide true "/login" :=
  ⟨auth_gate_rules_amended.1 false "/loginfoo" (by decide),
    auth_gate_rules_amended.2.1 true "/login" (Or.inl rfl)⟩

/-- Claim C9: login/register recognition is prefix-based — every pathname
beginning with "/login" or "/register" is treated as the login/register
page: redirect home when authenticated, allow otherwise. -/
theorem auth_gate_prefix_recognition :
    ∀ (isLoggedIn : Bool) (path : String),
      (jsStartsWith path "/login" || jsStartsWith path "/register") = true →
      authorized isLoggedIn path =
        (if isLoggedIn then Decision.redirectHome else Decision.allow) := by
  intro isLoggedIn path h
  cases isLoggedIn <;>
    cases hlog : jsStartsWith path "/login" <;>
      cases hreg : jsStartsWith path "/register" <;>
        simp_all [authorized]

/-- Witness for C9: "/register-admin" is treated as the register page in
both authentication states. -/
theorem auth_gate_prefix_recognition_witness :
    (jsStartsWith "/register-admin" "/login" || jsStartsWith "/register-admin" "/register") = true
    ∧ authorized true "/register-admin" = Decision.redirectHome :=
  ⟨by decide,
    (auth_gate_prefix_recognition true "/register-admin" (by decide)).trans (by decide)⟩

/-- Claim C10: since `isOnChat` tests `jsStartsWith pathname "/")`, which holds
for every request pathname, the callback always returns from the first three
rules and the two trailing fall-through branches are unreachable. -/
theorem auth_gate_tail_unreachable :
    ∀ (isLoggedIn : Bool) (path : String), jsStartsWith path "/" = true →
      authorizedBranch isLoggedIn path = AuthBranch.rule1
      ∨ authorizedBranch isLoggedIn path = AuthBranch.rule2
      ∨ authorizedBranch isLoggedIn path = AuthBranch.rule3 := by
  intro isLoggedIn path hpath
  cases isLoggedIn <;>
    cases hlog : jsStartsWith path "/login" <;>
      cases hreg : jsStartsWith path "/register" <;>
        simp [authorizedBranch, hpath, hlog, hreg]

/-- Witness for C10: at the unauthenticated request for "/" the callback
returns from rule 3. -/
theorem auth_gate_tail_unreachable_witness :
    authorizedBranch false "/" = AuthBranch.rule1
    ∨ authorizedBranch false "/" = AuthBranch.rule2
    ∨ authorizedBranch false "/" = AuthBranch.rule3 :=
  auth_gate_tail_unreachable false "/" (by decide)

/-- Counterexample to claim C1: with the draft text empty, the upload
queue empty and no response streaming, the claim demands that the Enter
keypress be blocked (the button is indeed disabled then), yet the
onKeyDown handler submits: the keypress path never consults the draft
text or the upload queue. -/
theorem enter_submits_with_empty_draft :
    sendButtonDisabled "" [] = true
    ∧ textareaOnKeyDown "Enter" false false "" [] = KeyAction.submit := by
  constructor <;> rfl

/-- Claim C1 as amended: the send button blocks submission exactly when a
response is streaming (the button is replaced by the stop button), the
draft is empty, or the upload queue is non-empty; the Enter keypress
without Shift is blocked only while streaming (warning toast), and
otherwise submits regardless of draft text and upload queue; Enter with
Shift always falls through to the default newline behavior. -/
theorem submission_gating_amended :
    (∀ (isLoading : Bool) (input : String) (uploadQueue : List String),
      buttonSubmissionBlocked isLoading input uploadQueue = true ↔
        (isLoading = true ∨ input = "" ∨ uploadQueue ≠ []))
    ∧ (∀ (isLoading : Bool) (input : String) (uploadQueue : List String),
      textareaOnKeyDown "Enter" false isLoading input uploadQueue =
        (if isLoading then KeyAction.warn else KeyAction.submit))
    ∧ (∀ (key : String) (isLoading : Bool) (input : String)
        (uploadQueue : List String),
      textareaOnKeyDown key true isLoading input uploadQueue =
        KeyAction.passthrough) := by
  refine ⟨?_, ?_, ?_⟩
  · intro isLoading input uploadQueue
    cases isLoading <;>
      simp [buttonSubmissionBlocked, sendButtonDisabled, sendButtonRendered,
        string_length_eq_zero_iff, List.length_pos, Nat.pos_iff_ne_zero]
  · intro isLoading input uploadQueue
    cases isLoading <;> rfl
  · intro key isLoading input uploadQueue
    simp [textareaOnKeyDown]

/-- Claim C3: `handleFileChange` immediately sets the pending-name list to
the selected filenames (one per file); after all uploads settle the queue
is empty, and the attachment list is the prior attachments followed by the
successful uploads in input order, failures contributing nothing. -/
theorem file_change_batch :
    ∀ (currentAttachments : List Attachment)
      (files : List (String × UploadResponse)),
      (handleFileChange currentAttachments files).pendingImmediate =
        files.map Prod.fst
      ∧ (handleFileChange currentAttachments files).pendingImmediate.length =
          files.length
      ∧ (handleFileChange currentAttachments files).finalQueue = []
      ∧ (handleFileChange currentAttachments files).finalAttachments =
          currentAttachments ++
            files.filterMap (fun f => (uploadFile f.snd).fst) := by
  intro currentAttachments files
  refine ⟨rfl, by simp [handleFileChange], rfl, ?_⟩
  simp only [handleFileChange, List.filterMap_map]
  rfl

/-- Counterexample to claim C4: an OK-status response whose body fails to
parse (`response.json()` throws) yields no attachment and the generic
failure toast, so "returns an Attachment exactly when the transport-level
response status is OK" fails at this input. -/
theorem upload_ok_malformed_body_cex :
    uploadFile (UploadResponse.ok none) =
      (none, [Toast.error (some uploadFailMessage)]) := rfl

/-- Claim C4 as amended: `uploadFile` returns the Attachment built from
the response fields exactly when the status is OK and the success payload
parses; a well-formed error response surfaces the server message; a
transport failure, an exception (including an OK response with
unparseable body) or an unparseable error payload surfaces the generic
failure toast; every outcome is a function of the single response, with
no retry. -/
theorem upload_file_cases :
    (∀ url pathname contentType : String,
      uploadFile (UploadResponse.ok (some (url, pathname, contentType))) =
        (some { url := url, name := pathname, contentType := contentType }, []))
    ∧ (∀ msg : String,
      uploadFile (UploadResponse.err (some (some msg))) =
        (none, [Toast.error (some msg)]))
    ∧ uploadFile UploadResponse.exception =
        (none, [Toast.error (some uploadFailMessage)])
    ∧ uploadFile (UploadResponse.err none) =
        (none, [Toast.error (some uploadFailMessage)])
    ∧ uploadFile (UploadResponse.ok none) =
        (none, [Toast.error (some uploadFailMessage)])
    ∧ (∀ resp : UploadResponse,
      (uploadFile resp).fst.isSome = true ↔
        ∃ url pathname contentType,
          resp = UploadResponse.ok (some (url, pathname, contentType))) := by
  refine ⟨fun _ _ _ => rfl, fun _ => rfl, rfl, rfl, rfl, ?_⟩
  intro resp
  match resp with
  | UploadResponse.exception => simp [uploadFile]
  | UploadResponse.ok none => simp [uploadFile]
  | UploadResponse.ok (some (u, p, c)) => simp [uploadFile]
  | UploadResponse.err none => simp [uploadFile]
  | UploadResponse.err (some e) => simp [uploadFile]

/-- Claim C5: `submitForm` performs, in program order, the history
replacement to the chat URL, the send call carrying the pre-clear
attachment list, the clearing of attachments and of the persisted draft,
the height reset to 98px, and the refocus exactly when the viewport width
exceeds 768. -/
theorem submit_form_contract :
    ∀ (chatId : String) (width : Option Nat) (st : InputState),
      (submitForm chatId width st).snd =
        [ChatEvent.historyReplace ("/chat/" ++ chatId),
          ChatEvent.send st.attachments]
          ++ (if widthExceeds width then [ChatEvent.focusTextarea] else [])
      ∧ (submitForm chatId width st).fst.url = "/chat/" ++ chatId
      ∧ (submitForm chatId width st).fst.attachments = []
      ∧ readLocalStorageInput (submitForm chatId width st).fst.storage = ""
      ∧ (submitForm chatId width st).fst.textarea.height = CssHeight.px 98
      ∧ (ChatEvent.focusTextarea ∈ (submitForm chatId width st).snd ↔
          ∃ w, width = some w ∧ 768 < w) := by
  intro chatId width st
  by_cases h : widthExceeds width = true
  · simp [submitForm, h, readLocalStorageInput, mirrorInputEffect, storageSet,
      resetHeight, ← widthExceeds_eq_true_iff]
  · simp [submitForm, h, readLocalStorageInput, mirrorInputEffect, storageSet,
      resetHeight, ← widthExceeds_eq_true_iff]

/-- Claim C6: every input change is mirrored to the durable slot keyed
"input"; writing "hello" and reinitializing with no rendered value
restores "hello"; and the initialization seed prefers the rendered value,
then the stored value, then the empty string. -/
theorem draft_round_trip :
    (∀ (s : LocalStorage) (v : String),
      readLocalStorageInput (mirrorInputEffect v s) = v)
    ∧ (∀ s : LocalStorage, seedInput "" (mirrorInputEffect "hello" s) = "hello")
    ∧ (∀ (domValue : String) (s : LocalStorage),
      seedInput domValue s =
        if domValue = "" then
          (if readLocalStorageInput s = "" then "" else readLocalStorageInput s)
        else
          domValue) := by
  refine ⟨?_, ?_, ?_⟩
  · intro s v
    simp [readLocalStorageInput, mirrorInputEffect, storageSet]
  · intro s
    simp [seedInput, jsOrString, readLocalStorageInput, mirrorInputEffect,
      storageSet]
  · intro domValue s
    by_cases hd : domValue = "" <;>
      by_cases hs : readLocalStorageInput s = "" <;>
        simp [seedInput, jsOrString, hd, hs]

/-- Claim C7: the preview row always shows one preview per attachment plus
one per upload-queue entry; after a batch settles the attachment list
gains exactly the successful uploads; and a failed upload is dropped with
a user-visible error toast. -/
theorem preview_count_invariant :
    (∀ (attachments : List Attachment) (uploadQueue : List String),
      (renderPreviews attachments uploadQueue).length =
        attachments.length + uploadQueue.length)
    ∧ (∀ (currentAttachments : List Attachment)
        (files : List (String × UploadResponse)),
      (handleFileChange currentAttachments files).finalAttachments =
        currentAttachments ++
          files.filterMap (fun f => (uploadFile f.snd).fst))
    ∧ (∀ resp : UploadResponse,
      (uploadFile resp).fst.isSome = true ∨ (uploadFile resp).snd ≠ []) := by
  refine ⟨?_, ?_, ?_⟩
  · intro attachments uploadQueue
    match attachments, uploadQueue with
    | [], [] => rfl
    | [], q :: qs => simp [renderPreviews]
    | a :: as, qs =>
      simp [renderPreviews]
      omega
  · intro currentAttachments files
    simp only [handleFileChange, List.filterMap_map]
    rfl
  · intro resp
    match resp with
    | UploadResponse.exception => right; simp [uploadFile]
    | UploadResponse.ok none => right; simp [uploadFile]
    | UploadResponse.ok (some (u, p, c)) => left; rfl
    | UploadResponse.err none => right; simp [uploadFile]
    | UploadResponse.err (some e) => right; simp [uploadFile]

/-- Claim C8: `adjustHeight` is idempotent — a second call on unchanged
content reproduces the same state, the height being the content-driven
scroll height plus 2 pixels, read after collapsing to auto height. -/
theorem adjust_height_idempotent :
    ∀ (base : String → Nat) (t : TextareaEl),
      adjustHeight base (adjustHeight base t) = adjustHeight base t
      ∧ (adjustHeight base t).height = CssHeight.px (base t.content + 2) := by
  intro base t
  constructor <;> simp [adjustHeight, scrollHeight]

end Chatbot
